import Mathlib

/-!
Verification of the generation pipeline in `app/llm_generator.py`.

Python strings are modelled as lists of characters (`Str`), file contents as
lists of byte values (`Bytes`), and the shared temporary directory
`/tmp/llm_attachments` as an association list from path to bytes (`FS`).
External effects that can fail (base64 decoding, file writes, file reads, the
HTTP call to the LLM endpoint) are passed in as explicit oracles, so that a
single total Lean function covers every run of the Python code, including the
runs in which any of those operations raises.
-/

namespace LlmGen

/-- Python strings, modelled as lists of characters. -/
abbrev Str := List Char

/-- Turns a Lean string literal into the model type. -/
def str (s : String) : Str := s.data

/-- Decoded file contents: a list of byte values. -/
abbrev Bytes := List Nat

/-- The shared temporary directory, as a map from path to file bytes.
More recent writes shadow older entries, modelling overwriting. -/
abbrev FS := List (Str × Bytes)

/-- Writing a file: the new entry shadows any previous one at the same path. -/
def fsWrite (fs : FS) (p : Str) (data : Bytes) : FS := (p, data) :: fs

/-- Reading a file back from the modelled directory. -/
def fsRead (fs : FS) (p : Str) : Option Bytes := fs.lookup p

/-- The whitespace characters stripped by Python `str.strip()` (the ASCII
ones; the pipeline only ever strips ASCII text). -/
def pySpace (c : Char) : Bool :=
  c == ' ' || c == '\t' || c == '\n' || c == '\r' || c == '\x0b' || c == '\x0c'

/-- Removes trailing `pySpace` characters. -/
def trimRight : Str → Str
  | [] => []
  | c :: l =>
    match trimRight l with
    | [] => if pySpace c then [] else [c]
    | r => c :: r

/-- Python `s.strip()` with no argument: remove leading and trailing whitespace. -/
def pyStrip (s : Str) : Str := trimRight (s.dropWhile pySpace)

/-- Python `s.startswith(c)` for a one-character argument. -/
def startsWithChar (c : Char) : Str → Bool
  | [] => false
  | d :: _ => d == c

/-- Python `sub in s` (substring containment). -/
def containsSub (sub : Str) : Str → Bool
  | [] => sub.isEmpty
  | c :: l => sub.isPrefixOf (c :: l) || containsSub sub l

/-- Python `s.split(sep, 1)` for a non-empty separator, returning `none` when
the separator does not occur (in the source that case surfaces as a
one-element list). -/
def splitOnFirst (sep : Str) : Str → Option (Str × Str)
  | [] => none
  | c :: l =>
    if sep.isPrefixOf (c :: l) then some ([], (c :: l).drop sep.length)
    else
      match splitOnFirst sep l with
      | some (a, b) => some (c :: a, b)
      | none => none

/-- Fuel-driven worker for `splitAll`; the fuel is an upper bound on the
number of characters still to be consumed. -/
def splitAllAux (sep : Str) : Nat → Str → List Str
  | 0, s => [s]
  | fuel + 1, s =>
    match s with
    | [] => [[]]
    | c :: l =>
      if sep.isPrefixOf (c :: l) then
        [] :: splitAllAux sep fuel ((c :: l).drop sep.length)
      else
        match splitAllAux sep fuel l with
        | [] => [[c]]
        | chunk :: more => (c :: chunk) :: more

/-- Python `s.split(sep)` for a non-empty separator: the maximal split on
every (leftmost, non-overlapping) occurrence. -/
def splitAll (sep : Str) (s : Str) : List Str := splitAllAux sep s.length s

/-- Fuel-driven worker for `replaceAll`. -/
def replaceAllAux (pat rep : Str) : Nat → Str → Str
  | 0, s => s
  | fuel + 1, s =>
    match s with
    | [] => []
    | c :: l =>
      if pat.isPrefixOf (c :: l) then
        rep ++ replaceAllAux pat rep fuel ((c :: l).drop pat.length)
      else
        c :: replaceAllAux pat rep fuel l

/-- Python `s.replace(pat, rep)` for a non-empty pattern: replace every
leftmost, non-overlapping occurrence. -/
def replaceAll (pat rep : Str) (s : Str) : Str := replaceAllAux pat rep s.length s

/-- Python `suf in` `s.endswith(suf)`. -/
def endsWithStr (suf s : Str) : Bool := suf.isSuffixOf s

/-- The number of lines produced by iterating a Python text file whose decoded
content is `s`: one line per newline, plus a final unterminated line. -/
def pyLineCount : Str → Nat
  | [] => 0
  | [_] => 1
  | c :: l => if c = '\n' then 1 + pyLineCount l else pyLineCount l

/-- Rendering of a non-negative Python integer inside an f-string. -/
def natStr (n : Nat) : Str := (Nat.repr n).data

/-- Rendering of a Python list of strings inside an f-string (`{checks or []}`),
for strings without embedded quotes or escape-worthy characters. -/
def pyListRepr (xs : List Str) : Str :=
  str "[" ++ List.intercalate (str ", ") (xs.map fun s => str "\x27" ++ s ++ str "\x27") ++ str "]"

/-- An input attachment record `{name, url}`. `name = none` models a dict with
no `"name"` key or a `None` value (`att.get("name")`); a missing `"url"` key is
modelled as the empty string (`att.get("url", "")`). -/
structure Attachment where
  name : Option Str
  url : Str
deriving DecidableEq

/-- A record produced by `decode_attachments`:
`{"name": name, "path": "/tmp/..", "mime": mime, "size": n}`. -/
structure DecodedAttachment where
  name : Str
  path : Str
  mime : Str
  size : Nat
deriving DecidableEq

/-- Python `att.get("name") or "attachment"`: the default is used when the key
is missing, `None`, or the empty string (all falsy). -/
def attName (att : Attachment) : Str :=
  match att.name with
  | none => str "attachment"
  | some n => if n = [] then str "attachment" else n

/-- Python `header.split(";")[0].replace("data:", "")` from
`decode_attachments` (line 34): the text before the first `;` of the header,
with every occurrence of `data:` removed. -/
def mimeOfHeader (header : Str) : Str :=
  replaceAll (str "data:") []
    (match splitOnFirst (str ";") header with
     | some (h, _) => h
     | none => header)

/-- The body of the `for` loop of `decode_attachments` (lines 27-46) for one
attachment, up to the filesystem write.  `b64decode payload = none` models
`base64.b64decode` raising, and `writeOk path = false` models `open`/`write`
raising; both exceptions are caught by the `except` clause, so the entry is
dropped (`none`).  A `url` without the `data:` prefix is skipped before the
`try` block, and a `url` with the prefix but no comma makes the tuple
unpacking of `url.split(",", 1)` raise `ValueError`, which is also caught. -/
def processAttachment (b64decode : Str → Option Bytes) (writeOk : Str → Bool)
    (att : Attachment) : Option (DecodedAttachment × Bytes) :=
  let name := attName att
  if (str "data:").isPrefixOf att.url then
    match splitOnFirst (str ",") att.url with
    | none => none
    | some (header, payload) =>
      match b64decode payload with
      | none => none
      | some data =>
        let path := str "/tmp/llm_attachments/" ++ name
        if writeOk path then
          some ({ name := name, path := path, mime := mimeOfHeader header,
                  size := data.length }, data)
        else none
  else none

/-- `decode_attachments` (lines 19-47), threading the temporary directory
explicitly: each successfully processed attachment appends its record to the
result and writes its decoded bytes at its path. -/
def decode_attachments (b64decode : Str → Option Bytes) (writeOk : Str → Bool) :
    List Attachment → FS → List DecodedAttachment × FS
  | [], fs => ([], fs)
  | att :: rest, fs =>
    match processAttachment b64decode writeOk att with
    | none => decode_attachments b64decode writeOk rest fs
    | some (d, data) =>
      let out := decode_attachments b64decode writeOk rest (fsWrite fs d.path data)
      (d :: out.1, out.2)

/-- The one-line notice emitted when reading an attachment preview fails
(line 75): `- <name> (<mime>): (could not read preview: <error>)`. -/
def previewErrorLine (nm mime e : Str) : Str :=
  str "- " ++ nm ++ str " (" ++ mime ++ str "): (could not read preview: " ++ e ++ str ")"

/-- The CSV preview comprehension of `summarize_attachment_meta` (line 65):
`[next(f).strip() for _ in range(min(3, sum(1 for line in f))) if f.tell() < 1000]`.
The `range` argument is evaluated first and `sum(1 for line in f)` consumes the
whole file, leaving `f.tell()` at the file size.  So when the file has at least
one line and is smaller than 1000 bytes, the first `next(f)` call raises
`StopIteration` (whose message is the empty string); otherwise the filter is
false (or the range empty) on every iteration and no line is ever read.
File sizes are measured here as character counts of the decoded content. -/
def csvPreviewLines (content : Str) : Except Str (List Str) :=
  if min 3 (pyLineCount content) = 0 then .ok []
  else if content.length < 1000 then .error []
  else .ok []

/-- One iteration of `summarize_attachment_meta` (lines 55-75).  The oracle
`readFile` models `open(p, "r", encoding="utf-8", errors="ignore")` together
with the subsequent reads: `.error e` is an `OSError` with message `e`, and
`.ok content` is the decoded text of the file. -/
def summarizeOne (readFile : Str → Except Str Str) (s : DecodedAttachment) : Str :=
  let nm := s.name
  let mime := s.mime
  if (str "text").isPrefixOf mime || endsWithStr (str ".md") nm
      || endsWithStr (str ".txt") nm || endsWithStr (str ".json") nm
      || endsWithStr (str ".csv") nm then
    match readFile s.path with
    | .error e => previewErrorLine nm mime e
    | .ok content =>
      if endsWithStr (str ".csv") nm then
        match csvPreviewLines content with
        | .error e => previewErrorLine nm mime e
        | .ok lines =>
          str "- " ++ nm ++ str " (" ++ mime ++ str "): preview: "
            ++ List.intercalate (str "\\n") lines
      else
        let preview := (replaceAll (str "\n") (str "\\n") (content.take 1000)).take 1000
        str "- " ++ nm ++ str " (" ++ mime ++ str "): preview: " ++ preview
  else
    str "- " ++ nm ++ str " (" ++ mime ++ str "): " ++ natStr s.size
      ++ str " bytes (Binary file, use as-is or encode to b64 if needed)"

/-- `summarize_attachment_meta` (lines 49-76): one summary line per decoded
attachment, joined with the literal two-character sequence backslash-n. -/
def summarize_attachment_meta (readFile : Str → Except Str Str)
    (saved : List DecodedAttachment) : Str :=
  List.intercalate (str "\\n") (saved.map (summarizeOne readFile))

/-- `_strip_code_block` (lines 78-93): if the text holds a triple-backtick
delimiter, scan the pieces after the opening delimiter, take the first one that
is non-blank after stripping, drop a leading language-tag line that does not
start with `<`, and strip; otherwise (or when all pieces are blank) strip the
whole text unchanged. -/
def strip_code_block (text : Str) : Str :=
  if containsSub (str "```") text then
    match ((splitAll (str "```") text).drop 1).find? (fun part => !(pyStrip part).isEmpty) with
    | some part =>
      match splitOnFirst (str "\n") part with
      | some (first, rest) =>
        if !(startsWithChar '<' (pyStrip first)) then pyStrip rest else pyStrip part
      | none => pyStrip part
    | none => pyStrip text
  else pyStrip text

/-- The fixed note sentence of the fallback README (line 113). -/
def fallbackNote : Str :=
  str "This README was generated as a fallback because the LLM did not return a valid response."

/-- `generate_readme_fallback` (lines 95-114): the deterministic README built
from the brief, the checks (joined by a literal backslash-n), the attachment
summary text and the round number. -/
def generate_readme_fallback (brief : Str) (checks : List Str)
    (attachments_meta : Str) (round_num : Nat) : Str :=
  str "# Auto-generated README (Round " ++ natStr round_num
    ++ str ")\n\n**Project brief:** " ++ brief
    ++ str "\n\n**Attachments:**\n" ++ attachments_meta
    ++ str "\n\n**Checks to meet:**\n" ++ List.intercalate (str "\\n") checks
    ++ str "\n\n## Setup\n1. Open `index.html` in a browser.\n2. No build steps required.\n\n## Notes\n"
    ++ fallbackNote ++ str "\n"

/-- The fixed fallback HTML document (lines 201-209), embedding the brief. -/
def fallbackHtml (brief : Str) : Str :=
  str "\n"
    ++ str "<html>\n  <head><title>Fallback App</title></head>\n  <body>\n    <h1>Hello (fallback)</h1>\n    <p>This app was generated as a fallback because the LLM failed to produce valid HTML. Brief: "
    ++ brief ++ str "</p>\n  </body>\n</html>\n"

/-- The `context_note` of `generate_app_code` (lines 125-127): non-empty only
for round 2 with a truthy (non-`None`, non-empty) previous README. -/
def contextNote (round_num : Nat) (prev_readme : Option Str) : Str :=
  match prev_readme with
  | none => []
  | some p =>
    if round_num = 2 ∧ p ≠ [] then
      str "\n### Previous README.md:\n" ++ p
        ++ str "\n\nRevise and enhance this project according to the new brief below. The code must be modified to satisfy the new requirements.\n"
    else []

/-- The `user_prompt` f-string of `generate_app_code` (lines 129-155). -/
def userPrompt (brief : Str) (checks : List Str) (attachments_meta : Str)
    (round_num : Nat) (prev_readme : Option Str) : Str :=
  str "\nYou are a professional web developer assistant. You must output a single-file HTML application.\n\n### Round\n"
    ++ natStr round_num
    ++ str "\n\n### Task\n" ++ brief
    ++ str "\n\n" ++ contextNote round_num prev_readme
    ++ str "\n\n### Attachments (if any)\nThe attached files are available in the repository root. Reference them directly by name (e.g., \x27sample.png\x27).\n"
    ++ attachments_meta
    ++ str "\n\n### Evaluation checks (Ensure the generated app can pass these checks)\n"
    ++ pyListRepr checks
    ++ str "\n\n### Output format rules:\n1. Produce a complete, runnable, single-file HTML web app satisfying the brief.\n2. Output must contain **two parts only**:\n    - The complete content of the `index.html` file (must be valid HTML).\n    - The complete content of the `README.md` file, which starts after a line containing exactly: `---README.md---`\n3. If using code blocks, ensure only the required content is inside the block.\n4. README.md must include: Overview, Setup, Usage, and (if Round 2) describe improvements made.\n5. Do not include any commentary or extra text outside the `index.html` and `---README.md---` sections.\n"

/-- Outcome of the remote call block (lines 157-188).  `failure` models any
`requests` exception, a non-2xx status raised by `raise_for_status`, a body
that fails to parse, or a missing text field; `text t` models a 2xx response
from which `candidates[0].content.parts[0].text` was extracted as `t`.  In the
source, every failure (including `t` empty, which raises inside the `try` and
is caught) leaves the local `text` equal to the empty string. -/
inductive LLMOutcome where
  | failure
  | text (t : Str)
deriving DecidableEq

/-- The value of the local `text` after the `try`/`except` block. -/
def llmText : LLMOutcome → Str
  | .failure => []
  | .text t => t

/-- The separator marker between the two output sections. -/
def readmeSep : Str := str "---README.md---"

/-- The `if "---README.md---" in text` branch of `generate_app_code`
(lines 190-197): split on the first marker and strip code blocks from both
parts, or keep the whole text as code and synthesize the README. -/
def extractParts (brief : Str) (checks : List Str) (attachments_meta : Str)
    (round_num : Nat) (text : Str) : Str × Str :=
  match splitOnFirst readmeSep text with
  | some (code_part, readme_part) =>
    (strip_code_block code_part, strip_code_block readme_part)
  | none =>
    (strip_code_block text,
     generate_readme_fallback brief checks attachments_meta round_num)

/-- The final guard of `generate_app_code` (lines 200-209): markup that does
not begin with `<` once stripped is replaced by the fixed fallback document. -/
def finalCode (brief : Str) (code_part : Str) : Str :=
  if startsWithChar '<' (pyStrip code_part) then code_part else fallbackHtml brief

/-- The returned value of `generate_app_code`:
`{"files": {"index.html": ..., "README.md": ...}, "attachments": saved}`,
with the files dict as an association list in insertion order. -/
structure GenerationResult where
  files : List (Str × Str)
  attachments : List DecodedAttachment
deriving DecidableEq

/-- `generate_app_code` (lines 116-212).  The oracles `b64decode`, `writeOk`
and `readFile` inject every possible failure of decoding, writing and reading
attachments; `outcome` stands for the remote call of lines 157-188 (the built
`user_prompt`, modelled separately by `userPrompt`, only influences the remote
service, which the outcome parameter abstracts).  The temporary directory is
threaded in and returned alongside the result. -/
def generate_app_code (b64decode : Str → Option Bytes) (writeOk : Str → Bool)
    (readFile : Str → Except Str Str) (outcome : LLMOutcome)
    (brief : Str) (attachments : List Attachment) (checks : List Str)
    (round_num : Nat) (prev_readme : Option Str) (fs : FS) :
    GenerationResult × FS :=
  let dec := decode_attachments b64decode writeOk attachments fs
  let saved := dec.1
  let attachments_meta := summarize_attachment_meta readFile saved
  let _user_prompt := userPrompt brief checks attachments_meta round_num prev_readme
  let text := llmText outcome
  let parts := extractParts brief checks attachments_meta round_num text
  let code_part := finalCode brief parts.1
  ({ files := [(str "index.html", code_part), (str "README.md", parts.2)],
     attachments := saved }, dec.2)

/-- The `"index.html"` value of a result's files dict. -/
def indexHtmlOf (g : GenerationResult) : Str :=
  (g.files.lookup (str "index.html")).getD []

/-- The `"README.md"` value of a result's files dict. -/
def readmeOf (g : GenerationResult) : Str :=
  (g.files.lookup (str "README.md")).getD []

example : pyStrip (str "  <p>hi</p>\n") = str "<p>hi</p>" := by decide
example : strip_code_block (str "```html\n<p>hi</p>\n```") = str "<p>hi</p>" := by decide
example : strip_code_block (str "```\n# Notes\n```") = str "# Notes" := by decide
example : strip_code_block (str "abc``` ``` ") = str "abc``` ```" := by decide
example : mimeOfHeader (str "data:text/plain;base64") = str "text/plain" := by decide
example : csvPreviewLines (str "a,b\nc,d\n") = .error [] := rfl
example :
    processAttachment (fun p => if p = str "QQ==" then some [65] else none) (fun _ => true)
      { name := some (str "a.txt"), url := str "data:text/plain;base64,QQ==" }
    = some ({ name := str "a.txt", path := str "/tmp/llm_attachments/a.txt",
              mime := str "text/plain", size := 1 }, [65]) := by decide
example : splitOnFirst (str "---") (str "ab---cd---e") = some (str "ab", str "cd---e") := by decide
example : splitAll (str "```") (str "a```b") = [str "a", str "b"] := by decide
example : splitAll (str "```") (str "```x```") = [str "", str "x", str ""] := by decide
example : replaceAll (str "\n") (str "\\n") (str "a\nb") = str "a\\nb" := by decide
example : containsSub (str "bc") (str "abcd") = true := by decide
example : pyLineCount (str "a,b\nc,d\n") = 2 := by decide
example : pyListRepr [str "c1", str "c2"] = str "[\x27c1\x27, \x27c2\x27]" := by decide
example : natStr 12 = str "12" := by decide

/-! Helper lemmas shared by the claim theorems. -/

/-- An infix stays an infix after appending on the right. -/
lemma isInfix_append_left {l m : Str} (h : l <:+: m) (n : Str) : l <:+: m ++ n :=
  h.trans (List.prefix_append m n).isInfix

/-- An infix stays an infix after appending on the left. -/
lemma isInfix_append_right {l m : Str} (h : l <:+: m) (n : Str) : l <:+: n ++ m :=
  h.trans (List.suffix_append n m).isInfix

/-- Reading back a freshly written file returns exactly the written bytes. -/
lemma fsRead_fsWrite (fs : FS) (p : Str) (data : Bytes) :
    fsRead (fsWrite fs p data) p = some data := by
  simp [fsRead, fsWrite, List.lookup]

/-- When the separator does not occur, `splitOnFirst` finds nothing. -/
lemma splitOnFirst_eq_none_of_not_contains {sep : Str} :
    ∀ {s : Str}, containsSub sep s = false → splitOnFirst sep s = none := by
  intro s
  induction s with
  | nil => intro _; rfl
  | cons c l ih =>
    intro h
    rw [containsSub, Bool.or_eq_false_iff] at h
    rw [splitOnFirst, if_neg (by simp [h.1]), ih h.2]

/-- A character that is not whitespace survives at the head of `trimRight`. -/
lemma trimRight_cons_of_not_space {c : Char} (l : Str) (h : pySpace c = false) :
    ∃ t, trimRight (c :: l) = c :: t := by
  rcases h' : trimRight l with _ | ⟨a, t⟩
  · exact ⟨[], by simp [trimRight, h', h]⟩
  · exact ⟨a :: t, by simp [trimRight, h']⟩

/-- The fixed fallback HTML document always strips to markup starting with `<`. -/
lemma pyStrip_fallbackHtml (brief : Str) : ∃ t, pyStrip (fallbackHtml brief) = '<' :: t := by
  have h1 : fallbackHtml brief
      = '\n' :: '<' ::
        (str "html>\n  <head><title>Fallback App</title></head>\n  <body>\n    <h1>Hello (fallback)</h1>\n    <p>This app was generated as a fallback because the LLM failed to produce valid HTML. Brief: "
          ++ brief ++ str "</p>\n  </body>\n</html>\n") := rfl
  have hs1 : pySpace '\n' = true := by decide
  have hs2 : pySpace '<' = false := by decide
  rw [pyStrip, h1]
  rw [List.dropWhile_cons, if_pos hs1, List.dropWhile_cons, if_neg (by simp [hs2])]
  exact trimRight_cons_of_not_space _ hs2

/-- The markup value after the final guard is non-empty and, once stripped,
starts with `<`. -/
lemma finalCode_ok (brief c : Str) :
    finalCode brief c ≠ [] ∧ startsWithChar '<' (pyStrip (finalCode brief c)) = true := by
  unfold finalCode
  by_cases h : startsWithChar '<' (pyStrip c) = true
  · rw [if_pos h]
    refine ⟨fun hc => ?_, h⟩
    rw [hc] at h
    simp [pyStrip, trimRight, startsWithChar] at h
  · rw [if_neg h]
    obtain ⟨t, ht⟩ := pyStrip_fallbackHtml brief
    constructor
    · intro hc
      rw [hc] at ht
      simp [pyStrip, trimRight] at ht
    · rw [ht]
      simp [startsWithChar]

/-- The fallback README is never the empty string. -/
lemma generate_readme_fallback_ne_nil (brief : Str) (checks : List Str)
    (attachments_meta : Str) (round_num : Nat) :
    generate_readme_fallback brief checks attachments_meta round_num ≠ [] := by
  unfold generate_readme_fallback
  exact List.append_ne_nil_of_right_ne_nil _ (by decide)

/-- The produced list of decoded attachments is the order-preserving filter-map
of the per-attachment processing over the input (the records do not depend on
the evolving directory state, only the final directory does). -/
lemma decode_attachments_eq_filterMap (b64decode : Str → Option Bytes)
    (writeOk : Str → Bool) :
    ∀ (atts : List Attachment) (fs : FS),
      (decode_attachments b64decode writeOk atts fs).1
        = atts.filterMap fun a => (processAttachment b64decode writeOk a).map Prod.fst := by
  intro atts
  induction atts with
  | nil => intro fs; rfl
  | cons att rest ih =>
    intro fs
    rcases h : processAttachment b64decode writeOk att with _ | ⟨d, data⟩
    · simp [decode_attachments, h, ih]
    · simp [decode_attachments, h, ih]

/-- Round 1 never renders a revision directive, whatever `prev_readme` holds. -/
lemma contextNote_one (prev_readme : Option Str) : contextNote 1 prev_readme = [] := by
  cases prev_readme with
  | none => rfl
  | some p =>
    have hne : ¬(1 = 2 ∧ p ≠ []) := fun hc => absurd hc.1 (by decide)
    simp [contextNote, hne]

/-! Claim theorems. -/

/-- C1 counterexample: the claim that both file values are always non-empty is
false.  When the remote call returns the text `<p>hi</p>---README.md---`, the
part after the separator strips to the empty string, so the returned
`README.md` value is empty. -/
theorem claim_C1_counterexample :
    readmeOf (generate_app_code (fun _ => none) (fun _ => true) (fun _ => .error [])
        (.text (str "<p>hi</p>---README.md---")) (str "make an app") [] [] 1 none []).1
      = [] := by decide

/-- C1 (amended): on every call, the returned `index.html` value is a
non-empty string that, after trimming, begins with `<`; the `README.md` value
is non-empty whenever the raw LLM text does not contain `---README.md---`
(then it is the non-empty fallback README), but may be empty when the
separator is present. -/
theorem claim_C1_amended (b64decode : Str → Option Bytes) (writeOk : Str → Bool)
    (readFile : Str → Except Str Str) (outcome : LLMOutcome) (brief : Str)
    (attachments : List Attachment) (checks : List Str) (round_num : Nat)
    (prev_readme : Option Str) (fs : FS) :
    indexHtmlOf (generate_app_code b64decode writeOk readFile outcome brief
        attachments checks round_num prev_readme fs).1 ≠ []
    ∧ startsWithChar '<' (pyStrip (indexHtmlOf (generate_app_code b64decode writeOk
        readFile outcome brief attachments checks round_num prev_readme fs).1)) = true
    ∧ (containsSub readmeSep (llmText outcome) = false →
        readmeOf (generate_app_code b64decode writeOk readFile outcome brief
          attachments checks round_num prev_readme fs).1 ≠ []) := by
  have hx : indexHtmlOf (generate_app_code b64decode writeOk readFile outcome brief
      attachments checks round_num prev_readme fs).1
    = finalCode brief (extractParts brief checks
        (summarize_attachment_meta readFile
          (decode_attachments b64decode writeOk attachments fs).1)
        round_num (llmText outcome)).1 := rfl
  have hr : readmeOf (generate_app_code b64decode writeOk readFile outcome brief
      attachments checks round_num prev_readme fs).1
    = (extractParts brief checks
        (summarize_attachment_meta readFile
          (decode_attachments b64decode writeOk attachments fs).1)
        round_num (llmText outcome)).2 := rfl
  refine ⟨?_, ?_, ?_⟩
  · rw [hx]; exact (finalCode_ok brief _).1
  · rw [hx]; exact (finalCode_ok brief _).2
  · intro h
    rw [hr]
    unfold extractParts
    rw [splitOnFirst_eq_none_of_not_contains h]
    exact generate_readme_fallback_ne_nil _ _ _ _

/-- C1 amended, witnessed at a concrete transport-failure run. -/
theorem claim_C1_amended_witness :
    indexHtmlOf (generate_app_code (fun _ => none) (fun _ => true) (fun _ => .error [])
        .failure (str "b") [] [] 1 none []).1 ≠ []
    ∧ startsWithChar '<' (pyStrip (indexHtmlOf (generate_app_code (fun _ => none)
        (fun _ => true) (fun _ => .error []) .failure (str "b") [] [] 1 none []).1)) = true
    ∧ readmeOf (generate_app_code (fun _ => none) (fun _ => true) (fun _ => .error [])
        .failure (str "b") [] [] 1 none []).1 ≠ [] :=
  ⟨(claim_C1_amended _ _ _ _ _ _ _ _ _ _).1,
   (claim_C1_amended _ _ _ _ _ _ _ _ _ _).2.1,
   (claim_C1_amended _ _ _ _ _ _ _ _ _ _).2.2 (by decide)⟩

/-- C2: every call returns normally (the model is a total function over all
inputs and all failure oracles — every transport, decoding, parsing and read
failure is one of the quantified oracle behaviours) with a result of the exact
shape: a files dict with exactly the keys `index.html` and `README.md` bound
to strings, and the list of decoded attachments. -/
theorem claim_C2_total_shape (b64decode : Str → Option Bytes) (writeOk : Str → Bool)
    (readFile : Str → Except Str Str) (outcome : LLMOutcome) (brief : Str)
    (attachments : List Attachment) (checks : List Str) (round_num : Nat)
    (prev_readme : Option Str) (fs : FS) :
    ∃ code readme : Str,
      (generate_app_code b64decode writeOk readFile outcome brief attachments
          checks round_num prev_readme fs).1.files
        = [(str "index.html", code), (str "README.md", readme)]
      ∧ (generate_app_code b64decode writeOk readFile outcome brief attachments
          checks round_num prev_readme fs).1.attachments
        = (decode_attachments b64decode writeOk attachments fs).1 :=
  ⟨_, _, rfl, rfl⟩

/-- C3: when the remote call fails at transport level, the call returns
normally, the `index.html` value contains the literal brief (inside the fixed
fallback document) and the `README.md` value contains the fixed fallback
note. -/
theorem claim_C3_transport_fallback (b64decode : Str → Option Bytes)
    (writeOk : Str → Bool) (readFile : Str → Except Str Str) (brief : Str)
    (attachments : List Attachment) (checks : List Str) (round_num : Nat)
    (prev_readme : Option Str) (fs : FS) :
    brief <:+: indexHtmlOf (generate_app_code b64decode writeOk readFile .failure
        brief attachments checks round_num prev_readme fs).1
    ∧ fallbackNote <:+: readmeOf (generate_app_code b64decode writeOk readFile
        .failure brief attachments checks round_num prev_readme fs).1 := by
  have hx : indexHtmlOf (generate_app_code b64decode writeOk readFile .failure brief
      attachments checks round_num prev_readme fs).1 = fallbackHtml brief := rfl
  have hr : readmeOf (generate_app_code b64decode writeOk readFile .failure brief
      attachments checks round_num prev_readme fs).1
    = generate_readme_fallback brief checks
        (summarize_attachment_meta readFile
          (decode_attachments b64decode writeOk attachments fs).1) round_num := rfl
  constructor
  · rw [hx]
    unfold fallbackHtml
    exact isInfix_append_left (isInfix_append_right (List.infix_refl _) _) _
  · rw [hr]
    unfold generate_readme_fallback
    exact isInfix_append_left (isInfix_append_right (List.infix_refl _) _) _

/-- C4: for an attachment whose url is a well-formed data URI (has the `data:`
prefix and a comma) whose base64 decode and file write succeed, processing
yields exactly one record whose `size` is the byte length of the decoded
payload, the bytes written at its path are exactly that payload, and the
output list of `decode_attachments` is the order-preserving filter-map of
per-attachment processing over the input. -/
theorem claim_C4_decode_roundtrip (b64decode : Str → Option Bytes)
    (writeOk : Str → Bool) (atts : List Attachment) (fs : FS) (att : Attachment)
    (header payload : Str) (data : Bytes)
    (hpre : (str "data:").isPrefixOf att.url = true)
    (hsplit : splitOnFirst (str ",") att.url = some (header, payload))
    (hb64 : b64decode payload = some data)
    (hw : writeOk (str "/tmp/llm_attachments/" ++ attName att) = true) :
    (decode_attachments b64decode writeOk atts fs).1
      = (atts.filterMap fun a => (processAttachment b64decode writeOk a).map Prod.fst)
    ∧ processAttachment b64decode writeOk att
      = some ({ name := attName att, path := str "/tmp/llm_attachments/" ++ attName att,
                mime := mimeOfHeader header, size := data.length }, data)
    ∧ (decode_attachments b64decode writeOk [att] fs).1
      = [{ name := attName att, path := str "/tmp/llm_attachments/" ++ attName att,
           mime := mimeOfHeader header, size := data.length }]
    ∧ fsRead (decode_attachments b64decode writeOk [att] fs).2
        (str "/tmp/llm_attachments/" ++ attName att) = some data := by
  have hproc : processAttachment b64decode writeOk att
      = some ({ name := attName att, path := str "/tmp/llm_attachments/" ++ attName att,
                mime := mimeOfHeader header, size := data.length }, data) := by
    simp [processAttachment, hpre, hsplit, hb64, hw]
  refine ⟨decode_attachments_eq_filterMap b64decode writeOk atts fs, hproc, ?_, ?_⟩
  · simp [decode_attachments, hproc]
  · simp [decode_attachments, hproc, fsRead_fsWrite]

/-- C4, witnessed at a one-byte text attachment. -/
theorem claim_C4_decode_roundtrip_witness :
    (decode_attachments (fun p => if p = str "QQ==" then some [65] else none)
        (fun _ => true)
        [{ name := some (str "a.txt"), url := str "data:text/plain;base64,QQ==" }] []).1
      = ([{ name := some (str "a.txt"), url := str "data:text/plain;base64,QQ==" }].filterMap
          fun a => (processAttachment (fun p => if p = str "QQ==" then some [65] else none)
            (fun _ => true) a).map Prod.fst)
    ∧ processAttachment (fun p => if p = str "QQ==" then some [65] else none) (fun _ => true)
        { name := some (str "a.txt"), url := str "data:text/plain;base64,QQ==" }
      = some ({ name := attName { name := some (str "a.txt"),
                                  url := str "data:text/plain;base64,QQ==" },
                path := str "/tmp/llm_attachments/"
                  ++ attName { name := some (str "a.txt"),
                               url := str "data:text/plain;base64,QQ==" },
                mime := mimeOfHeader (str "data:text/plain;base64"), size := [65].length }, [65])
    ∧ (decode_attachments (fun p => if p = str "QQ==" then some [65] else none)
        (fun _ => true)
        [{ name := some (str "a.txt"), url := str "data:text/plain;base64,QQ==" }] []).1
      = [{ name := attName { name := some (str "a.txt"),
                             url := str "data:text/plain;base64,QQ==" },
           path := str "/tmp/llm_attachments/"
             ++ attName { name := some (str "a.txt"),
                          url := str "data:text/plain;base64,QQ==" },
           mime := mimeOfHeader (str "data:text/plain;base64"), size := [65].length }]
    ∧ fsRead (decode_attachments (fun p => if p = str "QQ==" then some [65] else none)
        (fun _ => true)
        [{ name := some (str "a.txt"), url := str "data:text/plain;base64,QQ==" }] []).2
        (str "/tmp/llm_attachments/"
          ++ attName { name := some (str "a.txt"),
                       url := str "data:text/plain;base64,QQ==" }) = some [65] :=
  claim_C4_decode_roundtrip (fun p => if p = str "QQ==" then some [65] else none)
    (fun _ => true)
    [{ name := some (str "a.txt"), url := str "data:text/plain;base64,QQ==" }] []
    { name := some (str "a.txt"), url := str "data:text/plain;base64,QQ==" }
    (str "data:text/plain;base64") (str "QQ==") [65]
    (by decide) (by decide) (by decide) (by decide)

/-- C5: an attachment whose url lacks the `data:` prefix produces no record,
and the surrounding attachments are processed exactly as if it were absent
(no exception escapes: the model is total and the entry is skipped before the
`try` block). -/
theorem claim_C5_skip_non_data (b64decode : Str → Option Bytes) (writeOk : Str → Bool)
    (att : Attachment) (pre rest : List Attachment) (fs : FS)
    (h : (str "data:").isPrefixOf att.url = false) :
    processAttachment b64decode writeOk att = none
    ∧ decode_attachments b64decode writeOk (pre ++ att :: rest) fs
      = decode_attachments b64decode writeOk (pre ++ rest) fs := by
  have hnone : processAttachment b64decode writeOk att = none := by
    simp [processAttachment, h]
  refine ⟨hnone, ?_⟩
  induction pre generalizing fs with
  | nil => simp [decode_attachments, hnone]
  | cons a pre ih =>
    rcases ha : processAttachment b64decode writeOk a with _ | ⟨d, dbytes⟩
    · simp [decode_attachments, ha, ih]
    · simp [decode_attachments, ha, ih]

/-- C5, witnessed at an `https:` url between two data-URI attachments. -/
theorem claim_C5_skip_non_data_witness :
    processAttachment (fun _ => some [1]) (fun _ => true)
      { name := some (str "x"), url := str "https://example.com/x" } = none
    ∧ decode_attachments (fun _ => some [1]) (fun _ => true)
        [{ name := some (str "a"), url := str "data:t;base64,AA==" },
         { name := some (str "x"), url := str "https://example.com/x" },
         { name := some (str "b"), url := str "data:t;base64,AQ==" }] []
      = decode_attachments (fun _ => some [1]) (fun _ => true)
        [{ name := some (str "a"), url := str "data:t;base64,AA==" },
         { name := some (str "b"), url := str "data:t;base64,AQ==" }] [] :=
  claim_C5_skip_non_data _ _ _
    [{ name := some (str "a"), url := str "data:t;base64,AA==" }]
    [{ name := some (str "b"), url := str "data:t;base64,AQ==" }] [] (by decide)

/-- C6: whenever the raw LLM text lacks the separator `---README.md---`, the
returned `README.md` value is exactly the fallback generator applied to the
same brief, checks, attachment-summary text and round number. -/
theorem claim_C6_readme_fallback (b64decode : Str → Option Bytes) (writeOk : Str → Bool)
    (readFile : Str → Except Str Str) (outcome : LLMOutcome) (brief : Str)
    (attachments : List Attachment) (checks : List Str) (round_num : Nat)
    (prev_readme : Option Str) (fs : FS)
    (h : containsSub readmeSep (llmText outcome) = false) :
    readmeOf (generate_app_code b64decode writeOk readFile outcome brief attachments
        checks round_num prev_readme fs).1
      = generate_readme_fallback brief checks
          (summarize_attachment_meta readFile
            (decode_attachments b64decode writeOk attachments fs).1) round_num := by
  have hr : readmeOf (generate_app_code b64decode writeOk readFile outcome brief
      attachments checks round_num prev_readme fs).1
    = (extractParts brief checks
        (summarize_attachment_meta readFile
          (decode_attachments b64decode writeOk attachments fs).1)
        round_num (llmText outcome)).2 := rfl
  rw [hr]
  unfold extractParts
  rw [splitOnFirst_eq_none_of_not_contains h]

/-- C6, witnessed at raw text `hello`. -/
theorem claim_C6_readme_fallback_witness :
    containsSub readmeSep (llmText (.text (str "hello"))) = false
    ∧ readmeOf (generate_app_code (fun _ => none) (fun _ => true) (fun _ => .error [])
        (.text (str "hello")) (str "b") [] [] 1 none []).1
      = generate_readme_fallback (str "b") []
          (summarize_attachment_meta (fun _ => .error [])
            (decode_attachments (fun _ => none) (fun _ => true) [] []).1) 1 :=
  ⟨by decide, claim_C6_readme_fallback _ _ _ _ _ _ _ _ _ _ (by decide)⟩

/-- C7: on the sample raw text, splitting at the first separator and stripping
code blocks from both parts yields exactly `<p>hi</p>` and `# Notes`; the full
call returns exactly those two file values. -/
theorem claim_C7_extraction_sample :
    splitOnFirst readmeSep (str "```html\n<p>hi</p>\n```---README.md---```\n# Notes\n```")
      = some (str "```html\n<p>hi</p>\n```", str "```\n# Notes\n```")
    ∧ strip_code_block (str "```html\n<p>hi</p>\n```") = str "<p>hi</p>"
    ∧ strip_code_block (str "```\n# Notes\n```") = str "# Notes"
    ∧ indexHtmlOf (generate_app_code (fun _ => none) (fun _ => true) (fun _ => .error [])
        (.text (str "```html\n<p>hi</p>\n```---README.md---```\n# Notes\n```"))
        (str "b") [] [] 1 none []).1 = str "<p>hi</p>"
    ∧ readmeOf (generate_app_code (fun _ => none) (fun _ => true) (fun _ => .error [])
        (.text (str "```html\n<p>hi</p>\n```---README.md---```\n# Notes\n```"))
        (str "b") [] [] 1 none []).1 = str "# Notes" := by decide

/-- C8: a round-2 prompt with a non-null, non-empty previous README contains
both the previous README text and the brief; a round-1 prompt renders an empty
revision directive and is therefore identical whatever `previousReadme` value
is supplied. -/
theorem claim_C8_prompt_rounds :
    (∀ (brief : Str) (checks : List Str) (attachments_meta p : Str), p ≠ [] →
        p <:+: userPrompt brief checks attachments_meta 2 (some p)
        ∧ brief <:+: userPrompt brief checks attachments_meta 2 (some p))
    ∧ (∀ (brief : Str) (checks : List Str) (attachments_meta : Str)
        (prev_readme : Option Str),
        contextNote 1 prev_readme = []
        ∧ userPrompt brief checks attachments_meta 1 prev_readme
          = userPrompt brief checks attachments_meta 1 none) := by
  constructor
  · intro brief checks attachments_meta p hp
    have hcn : contextNote 2 (some p)
        = str "\n### Previous README.md:\n" ++ p
          ++ str "\n\nRevise and enhance this project according to the new brief below. The code must be modified to satisfy the new requirements.\n" := by
      simp [contextNote, hp]
    constructor
    · unfold userPrompt
      rw [hcn]
      exact isInfix_append_left (isInfix_append_left (isInfix_append_left
        (isInfix_append_left (isInfix_append_left
          ((List.infix_append _ _ _).trans
            (isInfix_append_right (List.infix_refl _) _)) _) _) _) _) _
    · unfold userPrompt
      exact isInfix_append_left (isInfix_append_left (isInfix_append_left
        (isInfix_append_left (isInfix_append_left (isInfix_append_left
          (isInfix_append_left (isInfix_append_right (List.infix_refl _) _) _)
            _) _) _) _) _) _
  · intro brief checks attachments_meta prev_readme
    refine ⟨contextNote_one prev_readme, ?_⟩
    unfold userPrompt
    rw [contextNote_one, contextNote_one]

/-- C8, witnessed at a concrete round-2 revision and a round-1 call with an
accidentally supplied previous README. -/
theorem claim_C8_prompt_rounds_witness :
    (str "old readme" <:+: userPrompt (str "new brief") [] [] 2 (some (str "old readme"))
      ∧ str "new brief" <:+: userPrompt (str "new brief") [] [] 2 (some (str "old readme")))
    ∧ userPrompt (str "b") [] [] 1 (some (str "old readme"))
      = userPrompt (str "b") [] [] 1 none :=
  ⟨claim_C8_prompt_rounds.1 _ _ _ _ (by decide),
   (claim_C8_prompt_rounds.2 (str "b") [] [] (some (str "old readme"))).2⟩

/-- C9 (failing input): for a two-line, eight-byte CSV attachment whose read
succeeds, the summarizer does not emit a preview line containing the first
lines.  The comprehension at line 65 evaluates `sum(1 for line in f)` first,
which exhausts the file, so the subsequent `next(f)` raises `StopIteration`
(message empty); the per-entry handler turns that into the could-not-read
notice.  The code thus contradicts its own `Read only a few lines for CSV
preview` comment and the spec's stated intent. -/
theorem claim_C9_csv_preview_bug :
    summarize_attachment_meta (fun _ => .ok (str "a,b\nc,d\n"))
        [{ name := str "data.csv", path := str "/tmp/llm_attachments/data.csv",
           mime := str "text/csv", size := 8 }]
      = previewErrorLine (str "data.csv") (str "text/csv") []
    ∧ previewErrorLine (str "data.csv") (str "text/csv") []
      = str "- data.csv (text/csv): (could not read preview: )" := by decide

/-- C10: an attachment with a missing, `None`, or empty name but a valid data
URI still yields a record, under the default name `attachment`, and the
decoded bytes are written to `/tmp/llm_attachments/attachment`. -/
theorem claim_C10_default_name (b64decode : Str → Option Bytes) (writeOk : Str → Bool)
    (att : Attachment) (fs : FS) (header payload : Str) (data : Bytes)
    (hname : att.name = none ∨ att.name = some [])
    (hpre : (str "data:").isPrefixOf att.url = true)
    (hsplit : splitOnFirst (str ",") att.url = some (header, payload))
    (hb64 : b64decode payload = some data)
    (hw : writeOk (str "/tmp/llm_attachments/attachment") = true) :
    processAttachment b64decode writeOk att
      = some ({ name := str "attachment", path := str "/tmp/llm_attachments/attachment",
                mime := mimeOfHeader header, size := data.length }, data)
    ∧ fsRead (decode_attachments b64decode writeOk [att] fs).2
        (str "/tmp/llm_attachments/attachment") = some data := by
  have hname' : attName att = str "attachment" := by
    rcases hname with h | h <;> simp [attName, h]
  have hcat : str "/tmp/llm_attachments/" ++ str "attachment"
      = str "/tmp/llm_attachments/attachment" := by decide
  have hproc : processAttachment b64decode writeOk att
      = some ({ name := str "attachment", path := str "/tmp/llm_attachments/attachment",
                mime := mimeOfHeader header, size := data.length }, data) := by
    simp [processAttachment, hpre, hsplit, hb64, hname', hcat, hw]
  refine ⟨hproc, ?_⟩
  simp [decode_attachments, hproc, fsRead_fsWrite]

/-- C10, witnessed at an attachment record with no name key. -/
theorem claim_C10_default_name_witness :
    processAttachment (fun p => if p = str "QQ==" then some [65] else none) (fun _ => true)
        { name := none, url := str "data:text/plain;base64,QQ==" }
      = some ({ name := str "attachment", path := str "/tmp/llm_attachments/attachment",
                mime := mimeOfHeader (str "data:text/plain;base64"), size := [65].length },
              [65])
    ∧ fsRead (decode_attachments (fun p => if p = str "QQ==" then some [65] else none)
        (fun _ => true) [{ name := none, url := str "data:text/plain;base64,QQ==" }] []).2
        (str "/tmp/llm_attachments/attachment") = some [65] :=
  claim_C10_default_name (fun p => if p = str "QQ==" then some [65] else none)
    (fun _ => true) { name := none, url := str "data:text/plain;base64,QQ==" } []
    (str "data:text/plain;base64") (str "QQ==") [65]
    (Or.inl rfl) (by decide) (by decide) (by decide) (by decide)

end LlmGen
